import Mathlib

/-!
Verification of the SQLiteWebEditor client core (src/client/src/lib/sqlite-utils.ts)
and server storage/routes (src/server/storage.ts, src/server/routes.ts).

The underlying sql.js engine is an external library; it is embedded as an
abstract state machine (SqlJsEngine) whose exec call may mutate the handle
state.  The wrapper code of the repository is translated over that interface.
-/

set_option maxHeartbeats 1000000

/-- A SQLite dynamic cell value as it flows through the client code. -/
inductive Value where
  | null : Value
  | int (n : Int) : Value
  | text (s : String) : Value
  | blob (bs : List Nat) : Value
deriving DecidableEq

/-- One result set as returned by the sql.js exec call:
an object with a columns array and a values array of rows. -/
structure SqlJsResult where
  columns : List String
  values : List (List Value)
deriving DecidableEq

/-- Rendering of a cell by a JS template literal interpolation.
null renders as the word null, a Uint8Array renders comma separated. -/
def tmplStr : Value → String
  | Value.null => "null"
  | Value.int n => toString n
  | Value.text s => s
  | Value.blob bs => String.intercalate "," (bs.map toString)

/-- Rendering of a cell by the CSV exporter expression, which coalesces
null to the empty string before interpolating. -/
def csvStr : Value → String
  | Value.null => ""
  | v => tmplStr v

/-- A single quote character, used to build SQL string literals. -/
def sqChar : String := String.singleton (Char.ofNat 39)

/-- The sql.js engine, embedded as an abstract state machine.  Db is the
state of one open database handle; newDatabase opens a byte buffer,
exec runs SQL text returning either result sets or an engine diagnostic
message together with the possibly mutated handle state, and exportBytes
serializes the handle back to a byte image. -/
structure SqlJsEngine where
  Db : Type
  newDatabase : List Nat → Db
  exec : Db → String → Except String (List SqlJsResult) × Db
  exportBytes : Db → List Nat

/-- Column descriptor assembled by getSchema from a PRAGMA table_info row. -/
structure ColumnInfo where
  cid : Value
  name : Value
  type : Value
  notnull : Value
  dflt_value : Value
  pk : Value
deriving DecidableEq

/-- One table entry of the schema produced by getSchema. -/
structure TableEntry where
  name : Value
  columns : List ColumnInfo
  rowCount : Value
deriving DecidableEq

/-- The Database Schema returned by getSchema. -/
structure DatabaseSchema where
  tables : List TableEntry
deriving DecidableEq

/-- The Query Result shape of shared/schema.ts. -/
structure QueryResult where
  columns : List String
  values : List (List Value)
deriving DecidableEq

/-- The catalog query string of getSchema. -/
def tablesQuery : String :=
  "SELECT name, sql FROM sqlite_master WHERE type=" ++ sqChar ++ "table" ++ sqChar ++
    " AND name NOT LIKE " ++ sqChar ++ "sqlite_%" ++ sqChar

/-- The PRAGMA query getSchema generates for a table name, by plain
template literal interpolation as in the source. -/
def tableInfoQuery (tableName : Value) : String :=
  "PRAGMA table_info(" ++ tmplStr tableName ++ ")"

/-- The COUNT query getSchema generates for a table name, by plain
template literal interpolation as in the source. -/
def countQuery (tableName : Value) : String :=
  "SELECT COUNT(*) FROM " ++ tmplStr tableName

/-- Mapping of one PRAGMA table_info row to a ColumnInfo, indexing
positions 0 to 5 as the source does. -/
def mkColumnInfo (row : List Value) : ColumnInfo :=
  { cid := row.getD 0 Value.null
    name := row.getD 1 Value.null
    type := row.getD 2 Value.null
    notnull := row.getD 3 Value.null
    dflt_value := row.getD 4 Value.null
    pk := row.getD 5 Value.null }

/-- The column list getSchema builds from the PRAGMA exec result: empty
when the engine returned no result set, otherwise the mapped rows of the
first result set. -/
def columnsOfResults : List SqlJsResult → List ColumnInfo
  | [] => []
  | cr :: _ => cr.values.map mkColumnInfo

/-- The row count getSchema records from the COUNT exec result: the source
ternary gives 0 when the result list is empty and otherwise reads
countResult[0].values[0][0]; the unconditional inner indexing is modelled
with head defaults. -/
def rowCountOfResults : List SqlJsResult → Value
  | [] => Value.int 0
  | cr :: _ => (cr.values.headD []).headD Value.null

/-- The body of the for loop of getSchema over the rows returned by the
catalog query, threading the handle state through each exec call. -/
def schemaLoop (E : SqlJsEngine) : List (List Value) → E.Db →
    Except String (List TableEntry) × E.Db
  | [], db => (Except.ok [], db)
  | row :: rest, db =>
    let tableName := row.headD Value.null
    let colsR := E.exec db (tableInfoQuery tableName)
    match colsR.1 with
    | Except.error e => (Except.error e, colsR.2)
    | Except.ok columnsResult =>
      let cntR := E.exec colsR.2 (countQuery tableName)
      match cntR.1 with
      | Except.error e => (Except.error e, cntR.2)
      | Except.ok countResult =>
        let restR := schemaLoop E rest cntR.2
        match restR.1 with
        | Except.error e => (Except.error e, restR.2)
        | Except.ok ts =>
          (Except.ok ({ name := tableName,
                        columns := columnsOfResults columnsResult,
                        rowCount := rowCountOfResults countResult } :: ts),
           restR.2)

/-- SqliteDatabase.fromBuffer: opens a byte buffer through the engine. -/
def SqliteDatabase.fromBuffer (E : SqlJsEngine) (buffer : List Nat) : E.Db :=
  E.newDatabase buffer

/-- SqliteDatabase.getSchema, translated from the source: run the catalog
query, then for each table row fetch columns and row count.  Engine
failures propagate as the error component. -/
def SqliteDatabase.getSchema (E : SqlJsEngine) (db : E.Db) :
    Except String DatabaseSchema × E.Db :=
  let tr := E.exec db tablesQuery
  match tr.1 with
  | Except.error e => (Except.error e, tr.2)
  | Except.ok tablesResult =>
    match tablesResult with
    | [] => (Except.ok ⟨[]⟩, tr.2)
    | r :: _ =>
      let lr := schemaLoop E r.values tr.2
      match lr.1 with
      | Except.error e => (Except.error e, lr.2)
      | Except.ok ts => (Except.ok ⟨ts⟩, lr.2)

/-- SqliteDatabase.executeQuery, translated from the source: an empty
result list becomes an empty QueryResult, otherwise the first result set
is returned; an engine failure is rethrown with the SQL Error prefix. -/
def SqliteDatabase.executeQuery (E : SqlJsEngine) (db : E.Db) (sql : String) :
    Except String QueryResult × E.Db :=
  let r := E.exec db sql
  match r.1 with
  | Except.ok [] => (Except.ok ⟨[], []⟩, r.2)
  | Except.ok (first :: _) => (Except.ok ⟨first.columns, first.values⟩, r.2)
  | Except.error e => (Except.error ("SQL Error: " ++ e), r.2)

/-- SqliteDatabase.export, named exportDb here because export is a Lean
keyword: delegates to the engine serializer. -/
def SqliteDatabase.exportDb (E : SqlJsEngine) (db : E.Db) : List Nat :=
  E.exportBytes db

/-- Wrapping of a field in double quotes, as the CSV exporter template does. -/
def csvQuote (s : String) : String := "\"" ++ s ++ "\""

/-- exportToCSV, translated from the source: empty string for zero columns,
otherwise a quoted header line followed by one quoted line per row, joined
by newlines. -/
def exportToCSV (result : QueryResult) : String :=
  if result.columns.length = 0 then ""
  else
    let header := String.intercalate "," (result.columns.map csvQuote)
    let dataRows := result.values.map (fun row =>
      String.intercalate "," (row.map (fun v => csvQuote (csvStr v))))
    String.intercalate "\n" (header :: dataRows)

/-- Modelled from the spec: the tabular-to-text contract of section 4.4,
header row of column names then one row per data row, each cell rendered
as its text form with null as the empty string, every field double
quoted, fields comma separated, rows newline separated, and the empty
string when there are zero columns. -/
def exportToCSVSpec (result : QueryResult) : String :=
  if result.columns = [] then ""
  else
    String.intercalate "\n"
      (String.intercalate "," (result.columns.map (fun c => csvQuote c)) ::
        result.values.map (fun row =>
          String.intercalate "," (row.map (fun v => csvQuote (csvStr v)))))

/-- Modelled from the spec: the quoting discipline section 4.2 requires
for identifiers interpolated into generated queries, the standard SQL
double quoting with internal double quotes doubled. -/
def quoteIdent (s : String) : String :=
  "\"" ++ s.replace "\"" "\"\"" ++ "\""

/-! ## Server side: MemStorage (src/server/storage.ts) and routes (src/server/routes.ts) -/

/-- Lookup in a string keyed map, modelling Map.get and object lookup. -/
def mapGet {A : Type} : List (String × A) → String → Option A
  | [], _ => none
  | (k, v) :: rest, key => if k = key then some v else mapGet rest key

/-- Insertion with replacement, modelling Map.set and file overwrite. -/
def mapSet {A : Type} (m : List (String × A)) (key : String) (v : A) :
    List (String × A) :=
  (key, v) :: m.filter (fun kv => kv.1 ≠ key)

/-- Removal, modelling Map.delete and unlink. -/
def mapDelete {A : Type} (m : List (String × A)) (key : String) :
    List (String × A) :=
  m.filter (fun kv => kv.1 ≠ key)

/-- The insert shape validated by insertSqliteFileSchema. -/
structure InsertSqliteFile where
  filename : String
  originalName : String
  fileSize : Nat
deriving DecidableEq

/-- A stored file metadata record. -/
structure SqliteFile where
  id : String
  filename : String
  originalName : String
  fileSize : Nat
  uploadedAt : Nat
deriving DecidableEq

/-- The MemStorage state: metadata records keyed by id, the in-memory
buffer cache keyed by filename, and the uploads directory on disk keyed
by filename. -/
structure MemStorage where
  files : List (String × SqliteFile)
  fileBuffers : List (String × List Nat)
  disk : List (String × List Nat)
deriving DecidableEq

/-- MemStorage.getSqliteFile from the source. -/
def MemStorage.getSqliteFile (s : MemStorage) (id : String) : Option SqliteFile :=
  mapGet s.files id

/-- MemStorage.createSqliteFile from the source; randomUUID and the
current date are nondeterministic inputs passed as parameters. -/
def MemStorage.createSqliteFile (s : MemStorage) (insertFile : InsertSqliteFile)
    (id : String) (now : Nat) : SqliteFile × MemStorage :=
  let file : SqliteFile :=
    { id := id, filename := insertFile.filename,
      originalName := insertFile.originalName,
      fileSize := insertFile.fileSize, uploadedAt := now }
  (file, { s with files := mapSet s.files id file })

/-- MemStorage.deleteSqliteFile from the source: when the id has a record,
unlink the physical file, drop the record and drop the cached buffer;
when it has none, do nothing. -/
def MemStorage.deleteSqliteFile (s : MemStorage) (id : String) : MemStorage :=
  match mapGet s.files id with
  | none => s
  | some file =>
    { files := mapDelete s.files id
      fileBuffers := mapDelete s.fileBuffers file.filename
      disk := mapDelete s.disk file.filename }

/-- MemStorage.getFileBuffer from the source: serve the cached buffer when
present, otherwise read the disk file into the cache, otherwise throw. -/
def MemStorage.getFileBuffer (s : MemStorage) (filename : String) :
    Except String (List Nat) × MemStorage :=
  match mapGet s.fileBuffers filename with
  | some cached => (Except.ok cached, s)
  | none =>
    match mapGet s.disk filename with
    | some buffer =>
      (Except.ok buffer, { s with fileBuffers := mapSet s.fileBuffers filename buffer })
    | none => (Except.error "File not found", s)

/-- MemStorage.saveFileBuffer from the source: write the disk file and put
the buffer in the cache. -/
def MemStorage.saveFileBuffer (s : MemStorage) (filename : String)
    (buffer : List Nat) : MemStorage :=
  { s with disk := mapSet s.disk filename buffer
           fileBuffers := mapSet s.fileBuffers filename buffer }

/-! ### Upload route and multer configuration (src/server/routes.ts) -/

/-- The characters of a path after the last slash, as path.basename gives. -/
def afterLastSlash (cs : List Char) : List Char :=
  cs.foldl (fun acc c => if c = '/' then [] else acc ++ [c]) []

/-- The suffix starting at the last dot of a character list, when any. -/
def extAfterLastDot : List Char → Option (List Char)
  | [] => none
  | c :: cs =>
    match extAfterLastDot cs with
    | some e => some e
    | none => if c = '.' then some (c :: cs) else none

/-- path.extname of Node, modelled by its documented last-dot rule on the
basename: no dot, or only a leading dot, gives the empty extension. -/
def extname (p : String) : String :=
  let b := afterLastSlash p.toList
  match extAfterLastDot b with
  | none => ""
  | some e => if e.length = b.length then "" else String.mk e

/-- The extension allow list of the multer fileFilter. -/
def allowedExts : List String := [".db", ".sqlite", ".sqlite3"]

/-- toLowerCase of JS, modelled character by character. -/
def lowerString (s : String) : String :=
  String.mk (s.toList.map Char.toLower)

/-- The multer fileFilter decision from the source: lowercase the
extension of the original name and check the allow list. -/
def fileFilterAccepts (originalname : String) : Bool :=
  allowedExts.contains (lowerString (extname originalname))

/-- The multer file size limit from the source, 100 MB. -/
def fileSizeLimit : Nat := 100 * 1024 * 1024

/-- Modelled from the spec: the status the transfer layer reports when
multer rejects a file (fileFilter error or size limit).  The Express app
wiring that converts this error into a response is not under src; the
endpoint table of section 6 specifies a 400 rejection. -/
def multerRejectStatus : Nat := 400

/-- An uploaded multipart file as multer presents it. -/
structure UploadFile where
  originalname : String
  size : Nat
  buffer : List Nat
deriving DecidableEq

/-- The observable outcome of the upload route: HTTP status, the success
flag of the JSON body, and the storage state afterwards. -/
structure UploadOutcome where
  status : Nat
  success : Bool
  store : MemStorage
deriving DecidableEq

/-- The POST upload route from the source: multer runs the fileFilter and
the size limit before the handler; the handler reports 400 when no file
arrived, otherwise saves the buffer under a fresh name and creates the
metadata record.  uuid1 names the stored file, uuid2 is the record id. -/
def handleUpload (s : MemStorage) (file? : Option UploadFile)
    (uuid1 uuid2 : String) (now : Nat) : UploadOutcome :=
  match file? with
  | none => { status := 400, success := false, store := s }
  | some f =>
    if fileFilterAccepts f.originalname = false then
      { status := multerRejectStatus, success := false, store := s }
    else if fileSizeLimit < f.size then
      { status := multerRejectStatus, success := false, store := s }
    else
      let filename := uuid1 ++ "_" ++ f.originalname
      let s1 := s.saveFileBuffer filename f.buffer
      let created := s1.createSqliteFile
        { filename := filename, originalName := f.originalname,
          fileSize := f.size } uuid2 now
      { status := 200, success := true, store := created.2 }

/-- The DELETE route from the source: delete through the storage and
respond success true. -/
def handleDelete (s : MemStorage) (id : String) : Bool × MemStorage :=
  (true, s.deleteSqliteFile id)

/-! ### Concrete engines used to instantiate the abstract interface -/

/-- A canned exec response table for a one table database named t with one
INTEGER primary key column x and three rows, plus a two statement query
and a syntax error case. -/
def cannedExec (q : String) : Except String (List SqlJsResult) :=
  if q = tablesQuery then
    Except.ok [⟨["name", "sql"], [[Value.text "t", Value.null]]⟩]
  else if q = "PRAGMA table_info(t)" then
    Except.ok [⟨["cid", "name", "type", "notnull", "dflt_value", "pk"],
      [[Value.int 0, Value.text "x", Value.text "INTEGER",
        Value.int 0, Value.null, Value.int 1]]⟩]
  else if q = "SELECT COUNT(*) FROM t" then
    Except.ok [⟨["COUNT(*)"], [[Value.int 3]]⟩]
  else if q = "SELECT 1; SELECT 2" then
    Except.ok [⟨["1"], [[Value.int 1]]⟩, ⟨["2"], [[Value.int 2]]⟩]
  else if q = "SELEKT * FROM t" then
    Except.error "near SELEKT: syntax error"
  else
    Except.ok []

/-- A stateless concrete engine over the canned table: exec never mutates
the handle. -/
def PureEngine : SqlJsEngine :=
  { Db := Unit
    newDatabase := fun _ => ()
    exec := fun db q => (cannedExec q, db)
    exportBytes := fun _ => [] }

/-- A concrete engine whose handle state is the byte image itself, so that
newDatabase and exportBytes are mutually inverse. -/
def BytesEngine : SqlJsEngine :=
  { Db := List Nat
    newDatabase := fun b => b
    exec := fun db q => (cannedExec q, db)
    exportBytes := fun d => d }

/-! ## Claim theorems -/

/-- C1: for a valid byte buffer B, opening B, serializing the handle and
reopening the produced bytes yields a database whose getSchema result is
identical to the schema derived from B directly, given the engine
serialize/open contract of spec section 4.1 (the byte image of a freshly
opened, unmutated handle reopens to the same handle state). -/
theorem roundTrip_getSchema (E : SqlJsEngine) (B : List Nat)
    (h : E.newDatabase (E.exportBytes (E.newDatabase B)) = E.newDatabase B) :
    SqliteDatabase.getSchema E
        (SqliteDatabase.fromBuffer E
          (SqliteDatabase.exportDb E (SqliteDatabase.fromBuffer E B)))
      = SqliteDatabase.getSchema E (SqliteDatabase.fromBuffer E B) := by
  simp only [SqliteDatabase.fromBuffer, SqliteDatabase.exportDb, h]

/-- Witness for C1 on the BytesEngine, where serialization is the identity
on the handle state, at the concrete buffer [1, 2, 3]. -/
theorem roundTrip_getSchema_witness :
    SqliteDatabase.getSchema BytesEngine
        (SqliteDatabase.fromBuffer BytesEngine
          (SqliteDatabase.exportDb BytesEngine
            (SqliteDatabase.fromBuffer BytesEngine [1, 2, 3])))
      = SqliteDatabase.getSchema BytesEngine
          (SqliteDatabase.fromBuffer BytesEngine [1, 2, 3]) :=
  roundTrip_getSchema BytesEngine [1, 2, 3] rfl

/-- C5: when the engine reports no tabular result (an empty result list),
executeQuery succeeds with empty columns and empty values. -/
theorem executeQuery_no_result_success (E : SqlJsEngine) (db db1 : E.Db)
    (sql : String) (h : E.exec db sql = (Except.ok [], db1)) :
    SqliteDatabase.executeQuery E db sql = (Except.ok ⟨[], []⟩, db1) := by
  simp only [SqliteDatabase.executeQuery, h]

/-- Witness for C5: a DDL statement on the PureEngine yields the empty
result list, and executeQuery returns the empty QueryResult. -/
theorem executeQuery_no_result_success_witness :
    SqliteDatabase.executeQuery PureEngine () "CREATE TABLE y(z INTEGER)"
      = (Except.ok ⟨[], []⟩, ()) :=
  executeQuery_no_result_success PureEngine () ()
    "CREATE TABLE y(z INTEGER)" rfl

/-- C6: when the engine returns several result sets, executeQuery returns
exactly the first result set, discarding the rest. -/
theorem executeQuery_first_result (E : SqlJsEngine) (db db1 : E.Db)
    (sql : String) (first : SqlJsResult) (rest : List SqlJsResult)
    (h : E.exec db sql = (Except.ok (first :: rest), db1)) :
    SqliteDatabase.executeQuery E db sql
      = (Except.ok ⟨first.columns, first.values⟩, db1) := by
  simp only [SqliteDatabase.executeQuery, h]

/-- Witness for C6: a two statement text on the PureEngine produces two
result sets and executeQuery surfaces only the first. -/
theorem executeQuery_first_result_witness :
    SqliteDatabase.executeQuery PureEngine () "SELECT 1; SELECT 2"
      = (Except.ok ⟨["1"], [[Value.int 1]]⟩, ()) :=
  executeQuery_first_result PureEngine () () "SELECT 1; SELECT 2"
    ⟨["1"], [[Value.int 1]]⟩ [⟨["2"], [[Value.int 2]]⟩] rfl

/-- C7: when the engine reports a failure with diagnostic m, executeQuery
fails with a message that carries m verbatim (prefixed by the fixed tag
SQL Error), and the handle state is exactly the state the engine left, so
the wrapper applies no effect beyond the engine itself. -/
theorem executeQuery_error_verbatim (E : SqlJsEngine) (db db1 : E.Db)
    (sql m : String) (h : E.exec db sql = (Except.error m, db1)) :
    SqliteDatabase.executeQuery E db sql
        = (Except.error ("SQL Error: " ++ m), db1)
      ∧ ∃ p, "SQL Error: " ++ m = p ++ m := by
  constructor
  · simp only [SqliteDatabase.executeQuery, h]
  · exact ⟨"SQL Error: ", rfl⟩

/-- Witness for C7: a misspelled SELECT on the PureEngine fails and the
engine diagnostic appears verbatim in the raised message. -/
theorem executeQuery_error_verbatim_witness :
    SqliteDatabase.executeQuery PureEngine () "SELEKT * FROM t"
        = (Except.error ("SQL Error: " ++ "near SELEKT: syntax error"), ())
      ∧ ∃ p, "SQL Error: " ++ "near SELEKT: syntax error"
          = p ++ "near SELEKT: syntax error" :=
  executeQuery_error_verbatim PureEngine () () "SELEKT * FROM t"
    "near SELEKT: syntax error" rfl

/-- C3 (code bug): getSchema builds its PRAGMA table_info and COUNT
queries by plain template literal interpolation of the table name, with
no quoting: at the table name containing a space the generated texts are
the raw concatenations, not the safely quoted forms the spec requires. -/
theorem getSchema_interpolates_unquoted :
    tableInfoQuery (Value.text "my table") = "PRAGMA table_info(my table)"
      ∧ countQuery (Value.text "my table") = "SELECT COUNT(*) FROM my table"
      ∧ countQuery (Value.text "my table")
          ≠ "SELECT COUNT(*) FROM " ++ quoteIdent "my table" := by
  refine ⟨rfl, rfl, ?_⟩
  decide

/-- C4: exportToCSV agrees with the spec description of the tabular to
text export on every Query Result, and on the concrete example with
columns a, b and rows [1, x] and [null, y] it produces exactly the three
quoted lines. -/
theorem exportToCSV_correct :
    (∀ r : QueryResult, exportToCSV r = exportToCSVSpec r)
      ∧ exportToCSV ⟨["a", "b"],
          [[Value.int 1, Value.text "x"], [Value.null, Value.text "y"]]⟩
          = "\"a\",\"b\"\n\"1\",\"x\"\n\"\",\"y\"" := by
  constructor
  · intro r
    simp only [exportToCSV, exportToCSVSpec, List.length_eq_zero]
  · rfl

/-- C8: the upload route rejects, before any bytes or metadata record are
stored, a request with no file (400), a file whose lowercased filename
extension is not on the allow list (400, case-insensitive match through
toLower in the fileFilter), and a file over the 100 MB cap. -/
theorem upload_rejections (s : MemStorage) (f : UploadFile)
    (uuid1 uuid2 : String) (now : Nat) :
    handleUpload s none uuid1 uuid2 now
        = { status := 400, success := false, store := s }
      ∧ (lowerString (extname f.originalname) ∉ allowedExts →
          handleUpload s (some f) uuid1 uuid2 now
            = { status := 400, success := false, store := s })
      ∧ (fileSizeLimit < f.size →
          handleUpload s (some f) uuid1 uuid2 now
            = { status := 400, success := false, store := s }) := by
  refine ⟨rfl, ?_, ?_⟩
  · intro hext
    have hacc : fileFilterAccepts f.originalname = false := by
      simpa [fileFilterAccepts] using hext
    simp [handleUpload, hacc, multerRejectStatus]
  · intro hsize
    by_cases hacc : fileFilterAccepts f.originalname = false
    · simp [handleUpload, hacc, multerRejectStatus]
    · simp [handleUpload, hacc, hsize, multerRejectStatus]

/-- Witness for C8: a .txt file and a 150 MB file are both rejected with
status 400 and an unchanged empty storage, as is a request with no file. -/
theorem upload_rejections_witness :
    handleUpload ⟨[], [], []⟩ none "u1" "u2" 0
        = { status := 400, success := false, store := ⟨[], [], []⟩ }
      ∧ handleUpload ⟨[], [], []⟩ (some ⟨"notes.txt", 5, [1, 2, 3]⟩) "u1" "u2" 0
          = { status := 400, success := false, store := ⟨[], [], []⟩ }
      ∧ handleUpload ⟨[], [], []⟩ (some ⟨"big.db", 150 * 1024 * 1024, []⟩) "u1" "u2" 0
          = { status := 400, success := false, store := ⟨[], [], []⟩ } :=
  ⟨(upload_rejections ⟨[], [], []⟩ ⟨"notes.txt", 5, [1, 2, 3]⟩ "u1" "u2" 0).1,
   (upload_rejections ⟨[], [], []⟩ ⟨"notes.txt", 5, [1, 2, 3]⟩ "u1" "u2" 0).2.1
     (by decide),
   (upload_rejections ⟨[], [], []⟩ ⟨"big.db", 150 * 1024 * 1024, []⟩ "u1" "u2" 0).2.2
     (by decide)⟩

/-- C9: deleting an id that has no stored metadata record responds with
success true and leaves the metadata map, the buffer cache and the disk
files unchanged. -/
theorem delete_unknown_id_noop (s : MemStorage) (id : String)
    (h : mapGet s.files id = none) :
    handleDelete s id = (true, s) := by
  simp only [handleDelete, MemStorage.deleteSqliteFile, h]

/-- Witness for C9: deleting the id missing from a nonempty storage is a
successful no-op. -/
theorem delete_unknown_id_noop_witness :
    handleDelete ⟨[("a", ⟨"a", "f.db", "f.db", 3, 0⟩)], [("f.db", [1])], [("f.db", [1])]⟩ "b"
      = (true, ⟨[("a", ⟨"a", "f.db", "f.db", 3, 0⟩)], [("f.db", [1])], [("f.db", [1])]⟩) :=
  delete_unknown_id_noop
    ⟨[("a", ⟨"a", "f.db", "f.db", 3, 0⟩)], [("f.db", [1])], [("f.db", [1])]⟩ "b"
    (by decide)

/-- C10: after saveFileBuffer the same filename reads back exactly the
saved buffer, and a filename present in the in-memory cache is served
from the cache without consulting the disk map, so replacing the disk
contents alone does not change what getFileBuffer returns. -/
theorem saveFileBuffer_getFileBuffer (s : MemStorage) (fn : String)
    (b : List Nat) :
    ((s.saveFileBuffer fn b).getFileBuffer fn).1 = Except.ok b
      ∧ ∀ (t : MemStorage) (c : List Nat) (d : List (String × List Nat)),
          mapGet t.fileBuffers fn = some c →
          MemStorage.getFileBuffer { t with disk := d } fn
            = (Except.ok c, { t with disk := d }) := by
  constructor
  · simp [MemStorage.saveFileBuffer, MemStorage.getFileBuffer, mapSet, mapGet]
  · intro t c d hc
    simp only [MemStorage.getFileBuffer, hc]

/-- Witness for C10: saving then reading the buffer [7, 8] round-trips,
and with [5] cached for the filename, reads return [5] whatever the disk
holds. -/
theorem saveFileBuffer_getFileBuffer_witness :
    ((MemStorage.saveFileBuffer ⟨[], [], []⟩ "f.db" [7, 8]).getFileBuffer "f.db").1
        = Except.ok [7, 8]
      ∧ MemStorage.getFileBuffer
          { files := [], fileBuffers := [("f.db", [5])], disk := [("f.db", [9, 9])] } "f.db"
          = (Except.ok [5],
             { files := [], fileBuffers := [("f.db", [5])], disk := [("f.db", [9, 9])] }) :=
  ⟨(saveFileBuffer_getFileBuffer ⟨[], [], []⟩ "f.db" [7, 8]).1,
   (saveFileBuffer_getFileBuffer ⟨[], [], []⟩ "f.db" [7, 8]).2
     ⟨[], [("f.db", [5])], []⟩ [5] [("f.db", [9, 9])] (by decide)⟩

/-- Invariant of the getSchema loop over a handle whose exec calls do not
mutate it: every produced table entry records as rowCount exactly the
value extracted from the exec result of its own generated COUNT query. -/
theorem schemaLoop_pure_rowCount (E : SqlJsEngine) (db : E.Db)
    (hpure : ∀ q, (E.exec db q).2 = db) :
    ∀ (rows : List (List Value)) (ts : List TableEntry),
      (schemaLoop E rows db).1 = Except.ok ts →
      ∀ t ∈ ts, ∃ cr,
        (E.exec db (countQuery t.name)).1 = Except.ok cr ∧
        t.rowCount = rowCountOfResults cr := by
  intro rows
  induction rows with
  | nil =>
    intro ts hts t ht
    simp only [schemaLoop] at hts
    cases hts
    simp at ht
  | cons row rest ih =>
    intro ts hts t ht
    simp only [schemaLoop, hpure] at hts
    cases hcols : (E.exec db (tableInfoQuery (row.headD Value.null))).1 with
    | error e => rw [hcols] at hts; simp at hts
    | ok columnsResult =>
      rw [hcols] at hts
      cases hcnt : (E.exec db (countQuery (row.headD Value.null))).1 with
      | error e => rw [hcnt] at hts; simp at hts
      | ok countResult =>
        rw [hcnt] at hts
        cases hrest : (schemaLoop E rest db).1 with
        | error e => rw [hrest] at hts; simp at hts
        | ok ts0 =>
          rw [hrest] at hts
          simp only [Except.ok.injEq] at hts
          subst hts
          rw [List.mem_cons] at ht
          rcases ht with rfl | ht
          · exact ⟨countResult, hcnt, rfl⟩
          · exact ih ts0 hrest t ht

/-- C2: for every table listed in the getSchema result of a handle whose
exec calls do not mutate it, the recorded rowCount equals the scalar in
the first cell of the result that executeQuery returns for the generated
SELECT COUNT query on that table, and executeQuery leaves the handle
unchanged. -/
theorem rowCount_matches_executeQuery (E : SqlJsEngine) (db : E.Db)
    (s : DatabaseSchema) (t : TableEntry)
    (first : SqlJsResult) (rest : List SqlJsResult)
    (v : Value) (vtail : List Value) (vrest : List (List Value))
    (hpure : ∀ q, (E.exec db q).2 = db)
    (hs : (SqliteDatabase.getSchema E db).1 = Except.ok s)
    (ht : t ∈ s.tables)
    (hc : (E.exec db (countQuery t.name)).1 = Except.ok (first :: rest))
    (hv : first.values = (v :: vtail) :: vrest) :
    t.rowCount = v
      ∧ SqliteDatabase.executeQuery E db (countQuery t.name)
          = (Except.ok ⟨first.columns, first.values⟩, db) := by
  have hinv : ∃ cr, (E.exec db (countQuery t.name)).1 = Except.ok cr ∧
      t.rowCount = rowCountOfResults cr := by
    cases htq : (E.exec db tablesQuery).1 with
    | error e =>
      simp [SqliteDatabase.getSchema, hpure, htq] at hs
    | ok tablesResult =>
      cases tablesResult with
      | nil =>
        simp [SqliteDatabase.getSchema, hpure, htq] at hs
        rw [← hs] at ht
        simp at ht
      | cons r rrest =>
        cases hloop : (schemaLoop E r.values db).1 with
        | error e =>
          simp [SqliteDatabase.getSchema, hpure, htq, hloop] at hs
        | ok ts =>
          simp [SqliteDatabase.getSchema, hpure, htq, hloop] at hs
          rw [← hs] at ht
          exact schemaLoop_pure_rowCount E db hpure r.values ts hloop t ht
  obtain ⟨cr, hcr, hrc⟩ := hinv
  rw [hc] at hcr
  simp only [Except.ok.injEq] at hcr
  constructor
  · rw [hrc, ← hcr]
    simp [rowCountOfResults, hv]
  · simp only [SqliteDatabase.executeQuery, hpure]
    rw [hc]

/-- Witness for C2 on the PureEngine: the schema lists the table t with
recorded rowCount 3, and executeQuery on the generated COUNT query
returns the single scalar 3. -/
theorem rowCount_matches_executeQuery_witness :
    (⟨Value.text "t",
       [⟨Value.int 0, Value.text "x", Value.text "INTEGER",
         Value.int 0, Value.null, Value.int 1⟩],
       Value.int 3⟩ : TableEntry).rowCount = Value.int 3
      ∧ SqliteDatabase.executeQuery PureEngine ()
          (countQuery (Value.text "t"))
          = (Except.ok ⟨["COUNT(*)"], [[Value.int 3]]⟩, ()) :=
  rowCount_matches_executeQuery PureEngine ()
    ⟨[⟨Value.text "t",
        [⟨Value.int 0, Value.text "x", Value.text "INTEGER",
          Value.int 0, Value.null, Value.int 1⟩],
        Value.int 3⟩]⟩
    ⟨Value.text "t",
      [⟨Value.int 0, Value.text "x", Value.text "INTEGER",
        Value.int 0, Value.null, Value.int 1⟩],
      Value.int 3⟩
    ⟨["COUNT(*)"], [[Value.int 3]]⟩ []
    (Value.int 3) [] []
    (fun _ => rfl) rfl (List.mem_singleton.mpr rfl) rfl rfl
